import Mathlib

/-!
Shallow embedding of `ctru-rs/src/services/ndsp.rs`, the wrapper around the
console's NDSP audio subsystem.

Modelling conventions:
- machine integers are `Nat`/`Int`; the `usize → u32` conversions performed by
  `try_into().unwrap()` are modelled by an explicit bound check against
  `USIZE_BOUND = 2 ^ 32` (on the 32-bit target the two types coincide, so the
  check records exactly when the conversion is lossless);
- a Rust function that can terminate fatally (a programming-error stop) is
  embedded as an `Option`-valued function, `none` marking the fatal stop;
- fallible native calls (`DSP_FlushDataCache`) are given their result code as
  an explicit oracle parameter, since the hardware is an opaque collaborator;
- pointers into a buffer's storage are modelled by the storage contents
  themselves (a `List Nat` of bytes), and null pointers by `0`.
-/

/-- Hardware format constant mirrored from the external native bindings.
Modelled from the spec: the native binding crate `ctru_sys` is not under
`src/`; §6 of the spec fixes that these selector values must match the
hardware's documented constants exactly.  Value: channels(1) | encoding(PCM8). -/
def NDSP_FORMAT_MONO_PCM8 : Nat := 1

/-- Hardware format constant, channels(1) | encoding(PCM16) (see
`NDSP_FORMAT_MONO_PCM8` for the modelling note). -/
def NDSP_FORMAT_MONO_PCM16 : Nat := 5

/-- Hardware format constant, channels(1) | encoding(ADPCM). -/
def NDSP_FORMAT_MONO_ADPCM : Nat := 9

/-- Hardware format constant, channels(2) | encoding(PCM8). -/
def NDSP_FORMAT_STEREO_PCM8 : Nat := 2

/-- Hardware format constant, bit 4. -/
def NDSP_FRONT_BYPASS : Nat := 16

/-- Hardware format constant, channels(2) | encoding(PCM16). -/
def NDSP_FORMAT_STEREO_PCM16 : Nat := 6

/-- Hardware format constant, bit 6. -/
def NDSP_3D_SURROUND_PREPROCESSED : Nat := 64

/-- Bound of the target's `usize`/`u32` (the console is a 32-bit platform). -/
def USIZE_BOUND : Nat := 2 ^ 32

/-- The `AudioFormat` enum of `ndsp.rs` (declared `#[repr(u32)]`). -/
inductive AudioFormat where
  | PCM8Mono
  | PCM16Mono
  | ADPCMMono
  | PCM8Stereo
  | PCM16Stereo
  | FrontBypass
  | SurroundPreprocessed
deriving DecidableEq, Repr

/-- The `u32` discriminant each `AudioFormat` variant is declared with in the
source (`PCM8Mono = ctru_sys::NDSP_FORMAT_MONO_PCM8`, and so on). -/
def AudioFormat.discriminant : AudioFormat → Nat
  | .PCM8Mono => NDSP_FORMAT_MONO_PCM8
  | .PCM16Mono => NDSP_FORMAT_MONO_PCM16
  | .ADPCMMono => NDSP_FORMAT_MONO_ADPCM
  | .PCM8Stereo => NDSP_FORMAT_STEREO_PCM8
  | .PCM16Stereo => NDSP_FORMAT_STEREO_PCM16
  | .FrontBypass => NDSP_FRONT_BYPASS
  | .SurroundPreprocessed => NDSP_3D_SURROUND_PREPROCESSED

/-- `AudioFormat::bytes_size` of `ndsp.rs`: bytes needed to store one sample.
The source matches `PCM16Mono | PCM16Stereo => 2`, terminates fatally for
`SurroundPreprocessed` (modelled as `none`), and returns `1` on the wildcard
arm covering every remaining variant. -/
def AudioFormat.bytes_size : AudioFormat → Option Nat
  | .PCM16Mono | .PCM16Stereo => some 2
  | .SurroundPreprocessed => none
  | _ => some 1

/-- The crate-level error type. Modelled from the spec: `crate::Error`
(src/error.rs) is not under `src/`; §7 of the spec names an invalid-channel
error carrying the offending index, and a surfaced error for a failed native
call (here carrying the native result code, as `ResultCode` wraps it). -/
inductive Error where
  | InvalidChannel (id : Nat)
  | Os (code : Int)
deriving DecidableEq, Repr

/-- Modelled from the spec: `crate::error::ResultCode` (not under `src/`)
converts a native result code into a surfaced error exactly when the native
call reports failure, which on this platform is a negative code. -/
def resultIsError (code : Int) : Bool := code < 0

/-- The `Channel` struct of `ndsp.rs`: just the lane id (an `i32`). -/
structure Channel where
  id : Int
deriving DecidableEq, Repr

/-- `Ndsp::channel` of `ndsp.rs`: validates the `u8` index and either returns
the channel representation or the invalid-channel error carrying the index. -/
def Ndsp.channel (id : Nat) : Except Error Channel :=
  if id > 23 then Except.error (Error.InvalidChannel id)
  else Except.ok ⟨(id : Int)⟩

/-- The `WaveBuffer` struct of `ndsp.rs`: owned byte storage (`data`), its
format tag, and the derived sample count. -/
structure WaveBuffer where
  data : List Nat
  audio_format : AudioFormat
  nsamples : Nat
deriving DecidableEq, Repr

/-- `WaveBuffer::new` of `ndsp.rs`. In source order: the sample count is
computed first (`data.len() / bytes_size`, where `bytes_size` may terminate
fatally), then the length is converted `usize → u32` for the flush call
(`try_into().unwrap()`, fatal when lossy), then `DSP_FlushDataCache` runs and
its result code is checked by `ResultCode(..)?`. `flushCode` is the oracle
result of that native call. `none` marks a fatal stop; `some (error e)` the
surfaced error; `some (ok buf)` successful construction. -/
def WaveBuffer.new (data : List Nat) (audio_format : AudioFormat)
    (flushCode : Int) : Option (Except Error WaveBuffer) :=
  match audio_format.bytes_size with
  | none => none
  | some w =>
    let nsamples := data.length / w
    if data.length < USIZE_BOUND then
      if resultIsError flushCode then some (Except.error (Error.Os flushCode))
      else some (Except.ok ⟨data, audio_format, nsamples⟩)
    else none

/-- `WaveBuffer::get_mut_data`: exposes the backing storage. -/
def WaveBuffer.get_mut_data (buf : WaveBuffer) : List Nat := buf.data

/-- A write through the mutable reference returned by `get_mut_data`: only the
`data` field is reachable through that reference, so exactly the byte storage
changes and the other fields are untouched. -/
def WaveBuffer.set_data (buf : WaveBuffer) (d : List Nat) : WaveBuffer :=
  { buf with data := d }

/-- `WaveBuffer::get_format`: read-only accessor of the format tag. -/
def WaveBuffer.get_format (buf : WaveBuffer) : AudioFormat := buf.audio_format

/-- `WaveBuffer::get_sample_amount`: read-only accessor of the sample count. -/
def WaveBuffer.get_sample_amount (buf : WaveBuffer) : Nat := buf.nsamples

/-- `impl Drop for WaveBuffer` of `ndsp.rs`: the result code of
`DSP_InvalidateDataCache` is bound to a discarded variable (`let _r = ...`),
so drop completes normally whatever the code is. `invalidateCode` is the
oracle result of the native call; `none` would mark a propagated failure. -/
def WaveBuffer.dropResult (invalidateCode : Int) : Option Unit :=
  let _r := invalidateCode
  some ()

/-- The `ctru_sys::ndspWaveBuf` record built by `WaveInfo::new`. Pointer
fields (`adpcm_data`, `next`) are modelled as `Nat` addresses with `0` for
null; `data_vaddr` is modelled by the pointed-to storage contents. -/
structure ndspWaveBuf where
  data_vaddr : List Nat
  nsamples : Nat
  adpcm_data : Nat
  offset : Nat
  looping : Bool
  status : Nat
  sequence_id : Nat
  next : Nat
deriving DecidableEq, Repr

/-- The `WaveInfo` struct of `ndsp.rs`: the borrowed buffer plus the raw
fixed-layout record handed to the hardware queue. -/
structure WaveInfo where
  buffer : WaveBuffer
  raw_data : ndspWaveBuf
deriving DecidableEq, Repr

/-- `WaveInfo::new` of `ndsp.rs`: builds the raw record with the buffer's
storage address, its sample count (`usize → u32` via `try_into().unwrap()`,
modelled by the bound check), the loop flag as given, offset `0`, a null
decoder-coefficient pointer, and zeroed hardware-owned fields. -/
def WaveInfo.new (buffer : WaveBuffer) (looping : Bool) : Option WaveInfo :=
  if buffer.nsamples < USIZE_BOUND then
    some
      { buffer := buffer
        raw_data :=
          { data_vaddr := buffer.data
            nsamples := buffer.nsamples
            adpcm_data := 0
            offset := 0
            looping := looping
            status := 0
            sequence_id := 0
            next := 0 } }
  else none

/-- `WaveInfo::get_mut_wavebuffer`: accessor of the borrowed buffer. -/
def WaveInfo.get_mut_wavebuffer (w : WaveInfo) : WaveBuffer := w.buffer

/-- Modelled from the spec: the native per-channel hardware FIFO behind
`ctru_sys::ndspChnWaveBufAdd` is not under `src/`; §5 of the spec fixes that
per-channel queue operations are FIFO. The state maps each lane id to its
queue of raw playback records. -/
structure NdspState where
  queues : Int → List ndspWaveBuf

/-- `Channel::queue_wave` of `ndsp.rs`: the wrapper body is a single
unconditional call `ndspChnWaveBufAdd(self.id, &mut buffer.raw_data)` — no
validation, no error path, no lifetime bookkeeping. The FIFO append itself is
modelled from the spec (see `NdspState`). -/
def Channel.queue_wave (ch : Channel) (st : NdspState) (buffer : WaveInfo) :
    NdspState :=
  ⟨fun i => if i = ch.id then st.queues i ++ [buffer.raw_data] else st.queues i⟩

/-- `Channel::set_format` passes `format as u16` to the native layer: the
`u32` discriminant narrowed to 16 bits. -/
def Channel.set_format_arg (format : AudioFormat) : Nat :=
  format.discriminant % 2 ^ 16

/-- C1: `queue_wave` appends the given playback descriptor's raw record to
the addressed channel's hardware FIFO, leaves every other channel's queue
unchanged, and performs no check: it is total, has no error path, and records
no lifetime information — keeping the descriptor and its borrowed storage
alive is the caller-enforced contract of the `unsafe fn`. -/
theorem queue_wave_appends_without_check (ch : Channel) (st : NdspState)
    (w : WaveInfo) :
    (ch.queue_wave st w).queues ch.id = st.queues ch.id ++ [w.raw_data] ∧
    ∀ j : Int, j ≠ ch.id → (ch.queue_wave st w).queues j = st.queues j := by
  constructor
  · simp [Channel.queue_wave]
  · intro j hj
    simp [Channel.queue_wave, hj]

/-- Witness for C1 at a concrete channel, empty state and concrete record. -/
theorem queue_wave_appends_without_check_witness :
    (Channel.queue_wave ⟨0⟩ ⟨fun _ => []⟩
        ⟨⟨[], AudioFormat.PCM8Mono, 0⟩, ⟨[], 0, 0, 0, false, 0, 0, 0⟩⟩).queues 0 =
      [⟨[], 0, 0, 0, false, 0, 0, 0⟩] ∧
    (Channel.queue_wave ⟨0⟩ ⟨fun _ => []⟩
        ⟨⟨[], AudioFormat.PCM8Mono, 0⟩, ⟨[], 0, 0, 0, false, 0, 0, 0⟩⟩).queues 1 =
      [] :=
  ⟨(queue_wave_appends_without_check ⟨0⟩ ⟨fun _ => []⟩
      ⟨⟨[], AudioFormat.PCM8Mono, 0⟩, ⟨[], 0, 0, 0, false, 0, 0, 0⟩⟩).1,
   (queue_wave_appends_without_check ⟨0⟩ ⟨fun _ => []⟩
      ⟨⟨[], AudioFormat.PCM8Mono, 0⟩, ⟨[], 0, 0, 0, false, 0, 0, 0⟩⟩).2 1 (by decide)⟩

/-- C2: `bytes_size` returns 1 for the 8-bit variants and front-bypass, 2 for
the 16-bit variants, and terminates fatally (modelled `none`) rather than
returning a number for the pre-processed-surround variant. -/
theorem bytes_size_by_variant :
    AudioFormat.bytes_size AudioFormat.PCM8Mono = some 1 ∧
    AudioFormat.bytes_size AudioFormat.PCM8Stereo = some 1 ∧
    AudioFormat.bytes_size AudioFormat.FrontBypass = some 1 ∧
    AudioFormat.bytes_size AudioFormat.PCM16Mono = some 2 ∧
    AudioFormat.bytes_size AudioFormat.PCM16Stereo = some 2 ∧
    AudioFormat.bytes_size AudioFormat.SurroundPreprocessed = none :=
  ⟨rfl, rfl, rfl, rfl, rfl, rfl⟩

/-- C3: over the `u8` domain, `Ndsp::channel` succeeds for every index in
0..=23 and returns a channel carrying exactly that index, and fails for every
index above 23 with the invalid-channel error carrying that index. -/
theorem channel_valid_or_invalid (id : Nat) (hid : id ≤ 255) :
    (id ≤ 23 → Ndsp.channel id = Except.ok ⟨(id : Int)⟩) ∧
    (23 < id → Ndsp.channel id = Except.error (Error.InvalidChannel id)) := by
  constructor
  · intro hle
    simp [Ndsp.channel, Nat.not_lt.mpr hle]
  · intro hgt
    simp [Ndsp.channel, hgt]

/-- Witness for C3 at the concrete indices 7 (valid) and 42 (invalid). -/
theorem channel_valid_or_invalid_witness :
    Ndsp.channel 7 = Except.ok ⟨7⟩ ∧
    Ndsp.channel 42 = Except.error (Error.InvalidChannel 42) :=
  ⟨(channel_valid_or_invalid 7 (by decide)).1 (by decide),
   (channel_valid_or_invalid 42 (by decide)).2 (by decide)⟩

/-- C4: for every buffer (whose sample count fits the target `u32`, as it
does by construction on the 32-bit target) and every loop flag,
`WaveInfo::new` builds a record whose data address is the buffer's storage,
whose sample count is the buffer's, whose loop flag is the flag exactly as
given, whose offset is 0, and whose hardware-owned fields and
decoder-coefficient pointer are all zero/null. -/
theorem waveinfo_new_initializes (buffer : WaveBuffer) (looping : Bool)
    (h : buffer.nsamples < USIZE_BOUND) :
    WaveInfo.new buffer looping = some
      { buffer := buffer
        raw_data :=
          { data_vaddr := buffer.data
            nsamples := buffer.nsamples
            adpcm_data := 0
            offset := 0
            looping := looping
            status := 0
            sequence_id := 0
            next := 0 } } := by
  simp [WaveInfo.new, h]

/-- Witness for C4 at a concrete two-byte PCM16 buffer with looping on. -/
theorem waveinfo_new_initializes_witness :
    WaveInfo.new ⟨[10, 20], AudioFormat.PCM16Mono, 1⟩ true = some
      { buffer := ⟨[10, 20], AudioFormat.PCM16Mono, 1⟩
        raw_data :=
          { data_vaddr := [10, 20]
            nsamples := 1
            adpcm_data := 0
            offset := 0
            looping := true
            status := 0
            sequence_id := 0
            next := 0 } } :=
  waveinfo_new_initializes ⟨[10, 20], AudioFormat.PCM16Mono, 1⟩ true (by decide)

/-- C5: whenever `WaveBuffer::new` succeeds on storage of length L with a
format of byte width W, the buffer's sample count is L / W under truncating
integer division. -/
theorem wavebuffer_sample_count (data : List Nat) (fmt : AudioFormat)
    (flushCode : Int) (w : Nat) (buf : WaveBuffer)
    (hw : AudioFormat.bytes_size fmt = some w)
    (h : WaveBuffer.new data fmt flushCode = some (Except.ok buf)) :
    buf.get_sample_amount = data.length / w := by
  simp only [WaveBuffer.new, hw] at h
  split at h
  · split at h
    · simp at h
    · simp only [Option.some.injEq, Except.ok.injEq] at h
      subst h
      rfl
  · simp at h

set_option maxRecDepth 8192 in
/-- Witness for C5: storage of 1024 bytes with 16-bit mono samples gives a
sample count of 1024 / 2 = 512. -/
theorem wavebuffer_sample_count_witness :
    (⟨List.replicate 1024 0, AudioFormat.PCM16Mono, 512⟩ :
        WaveBuffer).get_sample_amount =
      (List.replicate 1024 (0 : Nat)).length / 2 :=
  wavebuffer_sample_count (List.replicate 1024 0) AudioFormat.PCM16Mono 0 2
    ⟨List.replicate 1024 0, AudioFormat.PCM16Mono, 512⟩ rfl (by rfl)

/-- C6: for every supported format and in-range storage, `WaveBuffer::new`
returns a surfaced error exactly when the native cache-flush call reports
failure (negative result code) — and then no buffer value is constructed,
the result being the error alone; while the destruction-time cache
invalidation discards its result code, completing normally whatever it is. -/
theorem wavebuffer_new_error_iff_flush_fails :
    (∀ (data : List Nat) (fmt : AudioFormat) (flushCode : Int) (w : Nat),
        AudioFormat.bytes_size fmt = some w → data.length < USIZE_BOUND →
        ((∃ e, WaveBuffer.new data fmt flushCode = some (Except.error e)) ↔
          flushCode < 0)) ∧
    ∀ invalidateCode : Int, WaveBuffer.dropResult invalidateCode = some () := by
  constructor
  · intro data fmt flushCode w hw hlen
    constructor
    · rintro ⟨e, he⟩
      by_contra hc
      simp [WaveBuffer.new, hw, hlen, resultIsError, hc] at he
    · intro hc
      exact ⟨Error.Os flushCode,
        by simp [WaveBuffer.new, hw, hlen, resultIsError, hc]⟩
  · intro invalidateCode
    rfl

/-- Witness for C6: a failing flush (code -1) on a two-byte PCM8 buffer
yields an error, and drop swallows a failing invalidation (code -5). -/
theorem wavebuffer_new_error_iff_flush_fails_witness :
    (∃ e, WaveBuffer.new [0, 0] AudioFormat.PCM8Mono (-1) =
        some (Except.error e)) ∧
    WaveBuffer.dropResult (-5) = some () :=
  ⟨(wavebuffer_new_error_iff_flush_fails.1 [0, 0] AudioFormat.PCM8Mono (-1) 1
      rfl (by decide)).mpr (by decide),
   wavebuffer_new_error_iff_flush_fails.2 (-5)⟩

/-- C7: a successfully constructed buffer's `get_format` is exactly the
format supplied at construction, its `get_sample_amount` is exactly the
`nsamples` field computed at construction, and writing the storage through
the mutable-data access changes neither of the two. -/
theorem wavebuffer_accessors_stable (data : List Nat) (fmt : AudioFormat)
    (flushCode : Int) (buf : WaveBuffer)
    (h : WaveBuffer.new data fmt flushCode = some (Except.ok buf)) :
    buf.get_format = fmt ∧ buf.get_sample_amount = buf.nsamples ∧
    ∀ d : List Nat, (buf.set_data d).get_format = fmt ∧
      (buf.set_data d).get_sample_amount = buf.get_sample_amount := by
  have hfmt : buf.audio_format = fmt := by
    cases hb : AudioFormat.bytes_size fmt with
    | none =>
      simp only [WaveBuffer.new, hb] at h
      exact Option.noConfusion h
    | some w =>
      simp only [WaveBuffer.new, hb] at h
      split at h
      · split at h
        · simp at h
        · simp only [Option.some.injEq, Except.ok.injEq] at h
          subst h
          rfl
      · simp at h
  refine ⟨hfmt, rfl, fun d => ⟨?_, rfl⟩⟩
  simpa [WaveBuffer.set_data, WaveBuffer.get_format] using hfmt

/-- Witness for C7 at a concrete PCM8 buffer, rewritten to a longer storage. -/
theorem wavebuffer_accessors_stable_witness :
    (⟨[0, 0], AudioFormat.PCM8Mono, 2⟩ : WaveBuffer).get_format =
      AudioFormat.PCM8Mono ∧
    ((⟨[0, 0], AudioFormat.PCM8Mono, 2⟩ : WaveBuffer).set_data
        [9, 9, 9]).get_format = AudioFormat.PCM8Mono ∧
    ((⟨[0, 0], AudioFormat.PCM8Mono, 2⟩ : WaveBuffer).set_data
        [9, 9, 9]).get_sample_amount =
      (⟨[0, 0], AudioFormat.PCM8Mono, 2⟩ : WaveBuffer).get_sample_amount :=
  ⟨(wavebuffer_accessors_stable [0, 0] AudioFormat.PCM8Mono 0
      ⟨[0, 0], AudioFormat.PCM8Mono, 2⟩ rfl).1,
   ((wavebuffer_accessors_stable [0, 0] AudioFormat.PCM8Mono 0
      ⟨[0, 0], AudioFormat.PCM8Mono, 2⟩ rfl).2.2 [9, 9, 9]).1,
   ((wavebuffer_accessors_stable [0, 0] AudioFormat.PCM8Mono 0
      ⟨[0, 0], AudioFormat.PCM8Mono, 2⟩ rfl).2.2 [9, 9, 9]).2⟩

/-- C8: for every variant, the value `set_format` passes to the native layer
(the `u32` discriminant narrowed to 16 bits) equals the variant's declared
hardware constant exactly — the narrowing cast loses no information. -/
theorem set_format_cast_lossless (f : AudioFormat) :
    Channel.set_format_arg f = f.discriminant := by
  cases f <;> rfl

/-- C9: for every storage and every flush outcome, `WaveBuffer::new` with the
pre-processed-surround format terminates fatally while computing the sample
count — before the flush result is ever consulted — and so never returns
either a buffer or a recoverable error. -/
theorem surround_preprocessed_new_fatal (data : List Nat) (flushCode : Int) :
    WaveBuffer.new data AudioFormat.SurroundPreprocessed flushCode = none :=
  rfl

/-- C10: the enumeration has the ADPCM mono variant, and for it `bytes_size`
returns 1 rather than terminating fatally. -/
theorem adpcm_mono_bytes_size :
    AudioFormat.bytes_size AudioFormat.ADPCMMono = some 1 :=
  rfl
